import Mathlib

/-!
Verification of the answer-resolving adapter
(`lmms_eval/models/simple/virtual_model.py`, class `VirtualModel`).

The adapter resolves a batch of generation requests against a registry of
task handles, returning the pre-recorded answer of each request's document
instead of running model inference.  We embed the class shallowly:

* the mutable instance fields become a `VirtualModel` structure;
* `generate_until` becomes a pure function returning the list of emitted
  log diagnostics together with `Except PyError (List String)`, where
  `Except.error` models a Python exception escaping the call and
  `Except.ok` models a normal return of the result list;
* the external `doc_to_answer` collaborator, which may raise, is a field
  of type `Doc → Except String Answer`;
* Python dictionaries become association lists;
* `loglikelihood` returns `Except.error` (it always raises).
-/

set_option autoImplicit false

namespace VModel

/-- A document of a dataset split.  The resolution path never inspects a
document: it only forwards it to `doc_to_answer`.  We model a document by
its identity as a natural number. -/
abbrev Doc := Nat

/-- One positional element of a request's argument tuple.  The resolution
path uses the 4th element as a collection index, and the 5th and 6th as
string dictionary keys; every other shape of element is opaque. -/
inductive Arg where
  | int (n : Nat)
  | str (s : String)
  | other
deriving DecidableEq

/-- The value returned by a task's `doc_to_answer` transform: absent
(Python `None`), a list of strings, a string, or any other value carrying
its string conversion. -/
inductive Answer where
  | none
  | list (xs : List String)
  | str (s : String)
  | other (conv : String)
deriving DecidableEq

/-- Python's `str()` conversion, as used on the resolved answer value.
The source applies it only after the `None` and `list` branches have
replaced the answer by a string, so only the `str` and `other` cases are
ever reached by the resolution path. -/
def pyStr : Answer → String
  | Answer.none => "None"
  | Answer.list xs => String.intercalate ", " xs
  | Answer.str s => s
  | Answer.other conv => conv

/-- An exception escaping `generate_until`.  The lookup
`dataset[split][doc_id]` at line 84 of the source is OUTSIDE the
`try:` block, so an absent split (or a non-string split key) raises a key
error and an out-of-range (or non-integer) document index raises an index
error, and both propagate to the caller. -/
inductive PyError where
  | keyError (split : Arg)
  | indexError (doc_id : Arg)
deriving DecidableEq

/-- A diagnostic record emitted by the adapter's logger during
resolution of one request. -/
inductive Diag where
  | badArity (n : Nat)
  | unknownFormat
  | unknownTask (task : Arg) (available : List String)
  | answerNone (doc_id : Arg) (task : Arg)
  | answerError (doc_id : Arg) (task : Arg) (e : String)
deriving DecidableEq

/-- The external task handle: a dataset mapping split names to ordered
document collections, and the `doc_to_answer` transform, which may raise
(modelled by `Except.error`). -/
structure TaskHandle where
  dataset : List (String × List Doc)
  doc_to_answer : Doc → Except String Answer

/-- A generation request.  `arguments = Option.none` models a request
object without an `arguments` attribute (the `hasattr` probe fails);
`arguments = Option.some args` carries the argument tuple. -/
structure Instance where
  arguments : Option (List Arg)

/-- The adapter's instance state: the constructor-fixed `_batch_size`,
`_rank` and `_world_size`, and the mutable `_parent_tasks` registry. -/
structure VirtualModel where
  batch_size : Nat
  rank : Nat
  world_size : Nat
  parent_tasks : List (String × TaskHandle)

/-- `VirtualModel.__init__`: accepts a batch size and arbitrary extra
keyword arguments (ignored); `_rank` is set to `0`, `_world_size` to `1`,
and the registry starts empty.  No parameter can set rank or world size. -/
def VirtualModel.init (batch_size : Nat) (_kwargs : List (String × String)) : VirtualModel :=
  { batch_size := batch_size, rank := 0, world_size := 1, parent_tasks := [] }

/-- `VirtualModel.set_parent_tasks`: replaces the registry reference
wholesale with `task_dict`; no other field changes. -/
def VirtualModel.set_parent_tasks (m : VirtualModel) (task_dict : List (String × TaskHandle)) : VirtualModel :=
  { m with parent_tasks := task_dict }

/-- `task not in self._parent_tasks` / `self._parent_tasks[task]`: a
dictionary lookup keyed by the request's 5th tuple element.  A non-string
key is simply not found in the string-keyed dictionary. -/
def lookupTask (tasks : List (String × TaskHandle)) : Arg → Option TaskHandle
  | Arg.str s => List.lookup s tasks
  | _ => Option.none

/-- `belong_to_task.dataset[split]`: a dictionary lookup keyed by the
request's 6th tuple element; an absent (or non-string) key raises. -/
def datasetLookup (ds : List (String × List Doc)) : Arg → Option (List Doc)
  | Arg.str s => List.lookup s ds
  | _ => Option.none

/-- `dataset[split][doc_id]`: positional indexing into the split's
document collection; an out-of-range (or non-integer) index raises. -/
def indexDocs (docs : List Doc) : Arg → Option Doc
  | Arg.int n => docs.get? n
  | _ => Option.none

/-- The body of the per-request loop after the argument tuple has been
destructured into `(doc_id, task, split)` (source lines 73-105):
task lookup (recovered on failure), dataset/document lookup (NOT guarded:
failure is `Except.error`, an escaping exception), `doc_to_answer` under
`try:` (recovered on failure), then normalization of the answer value. -/
def resolveCore (tasks : List (String × TaskHandle)) (doc_id task split : Arg) :
    Except PyError (String × List Diag) :=
  match lookupTask tasks task with
  | Option.none =>
    Except.ok ("", [Diag.unknownTask task (tasks.map Prod.fst)])
  | Option.some handle =>
    match datasetLookup handle.dataset split with
    | Option.none => Except.error (PyError.keyError split)
    | Option.some docs =>
      match indexDocs docs doc_id with
      | Option.none => Except.error (PyError.indexError doc_id)
      | Option.some doc =>
        match handle.doc_to_answer doc with
        | Except.error e => Except.ok ("", [Diag.answerError doc_id task e])
        | Except.ok ans =>
          match ans with
          | Answer.none => Except.ok (pyStr (Answer.str ""), [Diag.answerNone doc_id task])
          | Answer.list xs => Except.ok (pyStr (Answer.str (xs.headD "")), [])
          | a => Except.ok (pyStr a, [])

/-- One iteration of the `for request in requests` loop (source lines
58-105): probe for the argument tuple, check its arity is exactly 6,
extract `(doc_id, task, split)` as the 4th-6th elements, then resolve.
`Except.ok (s, ds)` means the string `s` is appended for this position
after emitting diagnostics `ds`; `Except.error e` means an exception
escapes mid-iteration. -/
def resolveOne (tasks : List (String × TaskHandle)) (r : Instance) :
    Except PyError (String × List Diag) :=
  match r.arguments with
  | Option.none => Except.ok ("", [Diag.unknownFormat])
  | Option.some args =>
    if h : args.length = 6 then
      resolveCore tasks (args.get ⟨3, by omega⟩) (args.get ⟨4, by omega⟩) (args.get ⟨5, by omega⟩)
    else
      Except.ok ("", [Diag.badArity args.length])

/-- The request loop: accumulates emitted diagnostics and appended result
strings in order; an exception from any iteration aborts the batch,
discarding the partial `results` list (the caller sees only the raised
exception). -/
def resolveBatchGo (tasks : List (String × TaskHandle)) :
    List Instance → List Diag × Except PyError (List String)
  | [] => ([], Except.ok [])
  | r :: rs =>
    match resolveOne tasks r with
    | Except.error e => ([], Except.error e)
    | Except.ok sds =>
      (sds.2 ++ (resolveBatchGo tasks rs).1,
        Except.map (List.cons sds.1) (resolveBatchGo tasks rs).2)

/-- `VirtualModel.generate_until` (source lines 52-107). -/
def generate_until (m : VirtualModel) (requests : List Instance) :
    List Diag × Except PyError (List String) :=
  resolveBatchGo m.parent_tasks requests

/-- `VirtualModel.generate_until_multi_round` (source lines 109-113):
direct delegation. -/
def generate_until_multi_round (m : VirtualModel) (requests : List Instance) :
    List Diag × Except PyError (List String) :=
  generate_until m requests

/-- `VirtualModel.loglikelihood` (source lines 115-122): raises
`NotImplementedError` unconditionally.  The result element type is a
placeholder: no value is ever returned. -/
def loglikelihood (_m : VirtualModel) (_requests : List Instance) :
    Except String (List (Int × Bool)) :=
  Except.error
    "loglikelihood is not supported in virtual_model mode. This mode only supports generation tasks."

/-- Reduction of `resolveOne` on a well-formed 6-element argument tuple. -/
theorem resolveOne_six (tasks : List (String × TaskHandle)) (a1 a2 a3 d t s : Arg) :
    resolveOne tasks { arguments := Option.some [a1, a2, a3, d, t, s] } =
      resolveCore tasks d t s := rfl

/-- Unfolding of the loop on a request that resolves without raising. -/
theorem generate_until_cons_ok (m : VirtualModel) (r : Instance) (rest : List Instance)
    (s : String) (ds : List Diag)
    (h : resolveOne m.parent_tasks r = Except.ok (s, ds)) :
    generate_until m (r :: rest) =
      (ds ++ (generate_until m rest).1,
        Except.map (List.cons s) (generate_until m rest).2) := by
  simp [generate_until, resolveBatchGo, h]

/-- Unfolding of the loop on a request whose iteration raises. -/
theorem generate_until_cons_error (m : VirtualModel) (r : Instance) (rest : List Instance)
    (e : PyError)
    (h : resolveOne m.parent_tasks r = Except.error e) :
    generate_until m (r :: rest) = ([], Except.error e) := by
  simp [generate_until, resolveBatchGo, h]

/-- C7: for every adapter state and every input batch, including the empty
batch, `loglikelihood` fails with the unsupported-operation error and never
returns a result list. -/
theorem C7_loglikelihood_unsupported (m : VirtualModel) (requests : List Instance) :
    loglikelihood m requests =
      Except.error
        "loglikelihood is not supported in virtual_model mode. This mode only supports generation tasks." ∧
      ∀ res, loglikelihood m requests ≠ Except.ok res := by
  refine ⟨rfl, ?_⟩
  intro res h
  simp [loglikelihood] at h

/-- C8: `generate_until_multi_round` returns exactly the same value
(diagnostics and result) as `generate_until` on every input batch and every
adapter state, hence every registry state. -/
theorem C8_multi_round_identical (m : VirtualModel) (requests : List Instance) :
    generate_until_multi_round m requests = generate_until m requests := rfl

/-- C9: `set_parent_tasks` replaces the registry wholesale; after two calls
with different registries the stored registry is exactly the second one (no
merging), and every subsequent resolution call behaves as if only the
second registry had ever been set. -/
theorem C9_configure_last_call_wins (m : VirtualModel)
    (d1 d2 : List (String × TaskHandle)) (requests : List Instance) :
    ((m.set_parent_tasks d1).set_parent_tasks d2).parent_tasks = d2 ∧
      generate_until ((m.set_parent_tasks d1).set_parent_tasks d2) requests =
        generate_until (m.set_parent_tasks d2) requests :=
  ⟨rfl, rfl⟩

/-- C10: for every batch size and every extra keyword arguments, the
constructed adapter reports rank 0 and world size 1, and the only
state-changing operation, `set_parent_tasks`, leaves both unchanged on any
state. -/
theorem C10_rank_world_size_fixed (b : Nat) (kwargs : List (String × String)) :
    (VirtualModel.init b kwargs).rank = 0 ∧
      (VirtualModel.init b kwargs).world_size = 1 ∧
      ∀ (m : VirtualModel) (d : List (String × TaskHandle)),
        (m.set_parent_tasks d).rank = m.rank ∧
          (m.set_parent_tasks d).world_size = m.world_size :=
  ⟨rfl, rfl, fun _ _ => ⟨rfl, rfl⟩⟩

/-- C3: a request with no argument tuple, or whose argument tuple does not
have exactly 6 elements, yields the empty-string sentinel at its position
with a diagnostic recorded, and the rest of the batch is processed exactly
as it would be on its own. -/
theorem C3_malformed_isolated (m : VirtualModel) (r : Instance) (rest : List Instance)
    (h : r.arguments = Option.none ∨
      ∃ args, r.arguments = Option.some args ∧ args.length ≠ 6) :
    ∃ d, (generate_until m (r :: rest)).1 = d :: (generate_until m rest).1 ∧
      (generate_until m (r :: rest)).2 =
        Except.map (List.cons "") (generate_until m rest).2 := by
  rcases h with h | ⟨args, hargs, hlen⟩
  · refine ⟨Diag.unknownFormat, ?_⟩
    have hr : resolveOne m.parent_tasks r = Except.ok ("", [Diag.unknownFormat]) := by
      simp [resolveOne, h]
    rw [generate_until_cons_ok m r rest "" [Diag.unknownFormat] hr]
    exact ⟨rfl, rfl⟩
  · refine ⟨Diag.badArity args.length, ?_⟩
    have hr : resolveOne m.parent_tasks r = Except.ok ("", [Diag.badArity args.length]) := by
      simp [resolveOne, hargs, hlen]
    rw [generate_until_cons_ok m r rest "" [Diag.badArity args.length] hr]
    exact ⟨rfl, rfl⟩

/-- C3 witness: a 4-element argument tuple at the head of a two-request
batch yields the sentinel at its position while the rest of the batch is
still resolved on its own. -/
theorem C3_malformed_isolated_witness :
    ∃ d,
      (generate_until
        { batch_size := 1, rank := 0, world_size := 1, parent_tasks := [] }
        ({ arguments := Option.some [Arg.other, Arg.other, Arg.other, Arg.other] } ::
          [{ arguments := Option.none }])).1 =
        d :: (generate_until
          { batch_size := 1, rank := 0, world_size := 1, parent_tasks := [] }
          [{ arguments := Option.none }]).1 ∧
      (generate_until
        { batch_size := 1, rank := 0, world_size := 1, parent_tasks := [] }
        ({ arguments := Option.some [Arg.other, Arg.other, Arg.other, Arg.other] } ::
          [{ arguments := Option.none }])).2 =
        Except.map (List.cons "")
          (generate_until
            { batch_size := 1, rank := 0, world_size := 1, parent_tasks := [] }
            [{ arguments := Option.none }]).2 :=
  C3_malformed_isolated _ _ _
    (Or.inr ⟨[Arg.other, Arg.other, Arg.other, Arg.other], rfl, by decide⟩)

/-- C4: a well-formed request whose task is absent from the registry yields
the empty-string sentinel at its position, a diagnostic listing the
currently-known task names, no escaping exception, and the rest of the
batch is processed exactly as it would be on its own. -/
theorem C4_unknown_task (m : VirtualModel) (a1 a2 a3 d t s : Arg) (rest : List Instance)
    (h : lookupTask m.parent_tasks t = Option.none) :
    (generate_until m ({ arguments := Option.some [a1, a2, a3, d, t, s] } :: rest)).1 =
        Diag.unknownTask t (m.parent_tasks.map Prod.fst) ::
          (generate_until m rest).1 ∧
      (generate_until m ({ arguments := Option.some [a1, a2, a3, d, t, s] } :: rest)).2 =
        Except.map (List.cons "") (generate_until m rest).2 := by
  have hr : resolveOne m.parent_tasks { arguments := Option.some [a1, a2, a3, d, t, s] } =
      Except.ok ("", [Diag.unknownTask t (m.parent_tasks.map Prod.fst)]) := by
    rw [resolveOne_six]
    simp [resolveCore, h]
  rw [generate_until_cons_ok m _ rest _ _ hr]
  exact ⟨rfl, rfl⟩

/-- C4 witness: requesting task "unknown_task" against a registry holding
only "T" yields the sentinel with a diagnostic enumerating ["T"], and the
(empty) rest of the batch is unaffected. -/
theorem C4_unknown_task_witness :
    (generate_until
        { batch_size := 1, rank := 0, world_size := 1,
          parent_tasks :=
            [("T", { dataset := [("test", [0])],
                     doc_to_answer := fun _ => Except.ok (Answer.str "cat") })] }
        [{ arguments := Option.some [Arg.other, Arg.other, Arg.other,
            Arg.int 0, Arg.str "unknown_task", Arg.str "test"] }]).1 =
      Diag.unknownTask (Arg.str "unknown_task")
          ((([("T", { dataset := [("test", [0])],
                      doc_to_answer := fun _ => Except.ok (Answer.str "cat") })] :
              List (String × TaskHandle))).map Prod.fst) ::
        (generate_until
          { batch_size := 1, rank := 0, world_size := 1,
            parent_tasks :=
              [("T", { dataset := [("test", [0])],
                       doc_to_answer := fun _ => Except.ok (Answer.str "cat") })] }
          []).1 ∧
      (generate_until
        { batch_size := 1, rank := 0, world_size := 1,
          parent_tasks :=
            [("T", { dataset := [("test", [0])],
                     doc_to_answer := fun _ => Except.ok (Answer.str "cat") })] }
        [{ arguments := Option.some [Arg.other, Arg.other, Arg.other,
            Arg.int 0, Arg.str "unknown_task", Arg.str "test"] }]).2 =
        Except.map (List.cons "")
          (generate_until
            { batch_size := 1, rank := 0, world_size := 1,
              parent_tasks :=
                [("T", { dataset := [("test", [0])],
                         doc_to_answer := fun _ => Except.ok (Answer.str "cat") })] }
            []).2 :=
  C4_unknown_task _ Arg.other Arg.other Arg.other (Arg.int 0)
    (Arg.str "unknown_task") (Arg.str "test") [] rfl

/-- C5: when a request's task, split, document and `doc_to_answer` all
succeed, the string placed at its position is the normalization of the
returned answer value: absent becomes "", a list becomes its first element
if non-empty and "" if empty, and any other value becomes its string
conversion; the rest of the batch is processed as it would be on its own. -/
theorem C5_normalization (m : VirtualModel) (a1 a2 a3 d t s : Arg) (rest : List Instance)
    (handle : TaskHandle) (docs : List Doc) (doc : Doc) (ans : Answer)
    (hT : lookupTask m.parent_tasks t = Option.some handle)
    (hS : datasetLookup handle.dataset s = Option.some docs)
    (hD : indexDocs docs d = Option.some doc)
    (hA : handle.doc_to_answer doc = Except.ok ans) :
    ∃ out,
      (generate_until m ({ arguments := Option.some [a1, a2, a3, d, t, s] } :: rest)).2 =
          Except.map (List.cons out) (generate_until m rest).2 ∧
        (ans = Answer.none → out = "") ∧
        (∀ xs, ans = Answer.list xs → out = xs.headD "") ∧
        (∀ s2, ans = Answer.str s2 → out = s2) ∧
        (∀ c2, ans = Answer.other c2 → out = c2) := by
  have core : ∃ out ds, resolveCore m.parent_tasks d t s = Except.ok (out, ds) ∧
      (ans = Answer.none → out = "") ∧
      (∀ xs, ans = Answer.list xs → out = xs.headD "") ∧
      (∀ s2, ans = Answer.str s2 → out = s2) ∧
      (∀ c2, ans = Answer.other c2 → out = c2) := by
    cases ans with
    | none =>
      exact ⟨"", [Diag.answerNone d t], by simp [resolveCore, hT, hS, hD, hA, pyStr],
        fun _ => rfl, by simp, by simp, by simp⟩
    | list xs =>
      exact ⟨xs.headD "", [], by simp [resolveCore, hT, hS, hD, hA, pyStr],
        by simp, by simp, by simp, by simp⟩
    | str s2 =>
      exact ⟨s2, [], by simp [resolveCore, hT, hS, hD, hA, pyStr],
        by simp, by simp, by simp, by simp⟩
    | other c2 =>
      exact ⟨c2, [], by simp [resolveCore, hT, hS, hD, hA, pyStr],
        by simp, by simp, by simp, by simp⟩
  obtain ⟨out, ds, hcore, h1, h2, h3, h4⟩ := core
  refine ⟨out, ?_, h1, h2, h3, h4⟩
  have hr : resolveOne m.parent_tasks { arguments := Option.some [a1, a2, a3, d, t, s] } =
      Except.ok (out, ds) := by
    rw [resolveOne_six]; exact hcore
  rw [generate_until_cons_ok m _ rest _ _ hr]

/-- C5 witness: with a registry holding task "T" whose split "test" has a
document whose `doc_to_answer` returns the list ["cat", "dog"], the
resolved value is "cat" (first element) at that position. -/
theorem C5_normalization_witness :
    ∃ out,
      (generate_until
          { batch_size := 1, rank := 0, world_size := 1,
            parent_tasks :=
              [("T", { dataset := [("test", [7])],
                       doc_to_answer := fun _ => Except.ok (Answer.list ["cat", "dog"]) })] }
          ({ arguments := Option.some [Arg.other, Arg.other, Arg.other,
              Arg.int 0, Arg.str "T", Arg.str "test"] } :: [])).2 =
          Except.map (List.cons out)
            (generate_until
              { batch_size := 1, rank := 0, world_size := 1,
                parent_tasks :=
                  [("T", { dataset := [("test", [7])],
                           doc_to_answer := fun _ => Except.ok (Answer.list ["cat", "dog"]) })] }
              []).2 ∧
        (Answer.list ["cat", "dog"] = Answer.none → out = "") ∧
        (∀ xs, Answer.list ["cat", "dog"] = Answer.list xs → out = xs.headD "") ∧
        (∀ s2, Answer.list ["cat", "dog"] = Answer.str s2 → out = s2) ∧
        (∀ c2, Answer.list ["cat", "dog"] = Answer.other c2 → out = c2) :=
  C5_normalization _ Arg.other Arg.other Arg.other (Arg.int 0) (Arg.str "T")
    (Arg.str "test") []
    { dataset := [("test", [7])],
      doc_to_answer := fun _ => Except.ok (Answer.list ["cat", "dog"]) }
    [7] 7 (Answer.list ["cat", "dog"]) rfl rfl rfl rfl

/-- C6: when the document lookup succeeds but `doc_to_answer` raises, the
fault is caught: a diagnostic carrying the document id and the task name is
recorded, the empty-string sentinel takes that position, and the rest of
the batch is processed as it would be on its own. -/
theorem C6_transform_fault_isolated (m : VirtualModel) (a1 a2 a3 d t s : Arg)
    (rest : List Instance) (handle : TaskHandle) (docs : List Doc) (doc : Doc) (e : String)
    (hT : lookupTask m.parent_tasks t = Option.some handle)
    (hS : datasetLookup handle.dataset s = Option.some docs)
    (hD : indexDocs docs d = Option.some doc)
    (hA : handle.doc_to_answer doc = Except.error e) :
    (generate_until m ({ arguments := Option.some [a1, a2, a3, d, t, s] } :: rest)).1 =
        Diag.answerError d t e :: (generate_until m rest).1 ∧
      (generate_until m ({ arguments := Option.some [a1, a2, a3, d, t, s] } :: rest)).2 =
        Except.map (List.cons "") (generate_until m rest).2 := by
  have hr : resolveOne m.parent_tasks { arguments := Option.some [a1, a2, a3, d, t, s] } =
      Except.ok ("", [Diag.answerError d t e]) := by
    rw [resolveOne_six]
    simp [resolveCore, hT, hS, hD, hA]
  rw [generate_until_cons_ok m _ rest _ _ hr]
  exact ⟨rfl, rfl⟩

/-- C6 witness: a `doc_to_answer` that raises "boom" on document 0 of task
"T" yields the sentinel with a diagnostic carrying the document id and task
name, and the (empty) rest of the batch is unaffected. -/
theorem C6_transform_fault_isolated_witness :
    (generate_until
        { batch_size := 1, rank := 0, world_size := 1,
          parent_tasks :=
            [("T", { dataset := [("test", [0])],
                     doc_to_answer := fun _ => Except.error "boom" })] }
        ({ arguments := Option.some [Arg.other, Arg.other, Arg.other,
            Arg.int 0, Arg.str "T", Arg.str "test"] } :: [])).1 =
        Diag.answerError (Arg.int 0) (Arg.str "T") "boom" ::
          (generate_until
            { batch_size := 1, rank := 0, world_size := 1,
              parent_tasks :=
                [("T", { dataset := [("test", [0])],
                         doc_to_answer := fun _ => Except.error "boom" })] }
            []).1 ∧
      (generate_until
        { batch_size := 1, rank := 0, world_size := 1,
          parent_tasks :=
            [("T", { dataset := [("test", [0])],
                     doc_to_answer := fun _ => Except.error "boom" })] }
        ({ arguments := Option.some [Arg.other, Arg.other, Arg.other,
            Arg.int 0, Arg.str "T", Arg.str "test"] } :: [])).2 =
        Except.map (List.cons "")
          (generate_until
            { batch_size := 1, rank := 0, world_size := 1,
              parent_tasks :=
                [("T", { dataset := [("test", [0])],
                         doc_to_answer := fun _ => Except.error "boom" })] }
            []).2 :=
  C6_transform_fault_isolated _ Arg.other Arg.other Arg.other (Arg.int 0)
    (Arg.str "T") (Arg.str "test") []
    { dataset := [("test", [0])], doc_to_answer := fun _ => Except.error "boom" }
    [0] 0 "boom" rfl rfl rfl rfl

/-- C1 counterexample: with task "T" registered and its split "test"
holding a single document, a request carrying the out-of-range document
index 5 makes `generate_until` raise an index error — the claim that the
sentinel is appended and no exception propagates is false on the code,
because `dataset[split][doc_id]` (source line 84) is outside the `try:`
block. -/
theorem C1_counterexample :
    (generate_until
        { batch_size := 1, rank := 0, world_size := 1,
          parent_tasks :=
            [("T", { dataset := [("test", [0])],
                     doc_to_answer := fun _ => Except.ok (Answer.str "cat") })] }
        [{ arguments := Option.some [Arg.other, Arg.other, Arg.other,
            Arg.int 5, Arg.str "T", Arg.str "test"] }]).2 =
      Except.error (PyError.indexError (Arg.int 5)) := rfl

/-- C1 (amended): for a request whose task is registered, an absent split
or an out-of-range document index is NOT recovered: the lookup exception
propagates out of `generate_until` and aborts the batch.  Only malformed
requests, unknown tasks and `doc_to_answer` faults degrade to the
empty-string sentinel. -/
theorem C1_amended (m : VirtualModel) (a1 a2 a3 d t s : Arg) (rest : List Instance)
    (handle : TaskHandle)
    (hT : lookupTask m.parent_tasks t = Option.some handle)
    (hFail : datasetLookup handle.dataset s = Option.none ∨
      ∃ docs, datasetLookup handle.dataset s = Option.some docs ∧
        indexDocs docs d = Option.none) :
    ∃ e, generate_until m ({ arguments := Option.some [a1, a2, a3, d, t, s] } :: rest) =
      ([], Except.error e) := by
  rcases hFail with hS | ⟨docs, hS, hD⟩
  · refine ⟨PyError.keyError s, ?_⟩
    have hr : resolveOne m.parent_tasks { arguments := Option.some [a1, a2, a3, d, t, s] } =
        Except.error (PyError.keyError s) := by
      rw [resolveOne_six]
      simp [resolveCore, hT, hS]
    exact generate_until_cons_error m _ rest _ hr
  · refine ⟨PyError.indexError d, ?_⟩
    have hr : resolveOne m.parent_tasks { arguments := Option.some [a1, a2, a3, d, t, s] } =
        Except.error (PyError.indexError d) := by
      rw [resolveOne_six]
      simp [resolveCore, hT, hS, hD]
    exact generate_until_cons_error m _ rest _ hr

/-- C1 amended witness: a registered task whose dataset has no splits at
all makes any request against it abort the batch with an escaping key
error. -/
theorem C1_amended_witness :
    ∃ e,
      generate_until
        { batch_size := 1, rank := 0, world_size := 1,
          parent_tasks :=
            [("T", { dataset := [],
                     doc_to_answer := fun _ => Except.ok (Answer.str "cat") })] }
        ({ arguments := Option.some [Arg.other, Arg.other, Arg.other,
            Arg.int 0, Arg.str "T", Arg.str "test"] } :: []) =
        ([], Except.error e) :=
  C1_amended _ Arg.other Arg.other Arg.other (Arg.int 0) (Arg.str "T")
    (Arg.str "test") []
    { dataset := [], doc_to_answer := fun _ => Except.ok (Answer.str "cat") }
    rfl (Or.inl rfl)

/-- C2 counterexample: a single-request batch whose (registered) task lacks
the requested split makes `generate_until` raise instead of returning a
list — so the claim that every input yields a same-length output list is
false on the code. -/
theorem C2_counterexample :
    (generate_until
        { batch_size := 1, rank := 0, world_size := 1,
          parent_tasks :=
            [("T", { dataset := [("train", [0])],
                     doc_to_answer := fun _ => Except.ok (Answer.str "cat") })] }
        [{ arguments := Option.some [Arg.other, Arg.other, Arg.other,
            Arg.int 0, Arg.str "T", Arg.str "test"] }]).2 =
      Except.error (PyError.keyError (Arg.str "test")) := rfl

/-- C2 (amended): whenever `generate_until` returns a result list (no
dataset-lookup exception escapes), the list's length equals the input
length and position i holds exactly the resolution result of request i —
no reordering, no dropping; but for inputs where a dataset lookup fails,
an exception propagates and no list is returned at all. -/
theorem C2_amended (m : VirtualModel) (reqs : List Instance) (out : List String)
    (h : (generate_until m reqs).2 = Except.ok out) :
    out.length = reqs.length ∧
      ∀ i r, reqs.get? i = Option.some r →
        ∃ s ds, resolveOne m.parent_tasks r = Except.ok (s, ds) ∧
          out.get? i = Option.some s := by
  induction reqs generalizing out with
  | nil =>
    simp [generate_until, resolveBatchGo] at h
    subst h
    exact ⟨rfl, fun i r hr => by simp at hr⟩
  | cons r rs ih =>
    cases hr : resolveOne m.parent_tasks r with
    | error e =>
      rw [generate_until_cons_error m r rs e hr] at h
      simp at h
    | ok sds =>
      obtain ⟨s, ds⟩ := sds
      rw [generate_until_cons_ok m r rs s ds hr] at h
      cases hrest : (generate_until m rs).2 with
      | error e => rw [hrest] at h; simp [Except.map] at h
      | ok out2 =>
        rw [hrest] at h
        simp [Except.map] at h
        subst h
        obtain ⟨hlen, hpt⟩ := ih out2 hrest
        refine ⟨by simp [hlen], ?_⟩
        intro i rr hi
        cases i with
        | zero =>
          simp at hi
          subst hi
          exact ⟨s, ds, hr, rfl⟩
        | succ j =>
          simp only [List.get?_cons_succ] at hi ⊢
          exact hpt j rr hi

/-- C2 amended witness: a two-request batch (one resolvable request, one
unknown-task request) returns normally with a two-element list whose
positions hold exactly the per-request resolution results. -/
theorem C2_amended_witness :
    (["cat", ""] : List String).length =
        ([{ arguments := Option.some [Arg.other, Arg.other, Arg.other,
              Arg.int 0, Arg.str "T", Arg.str "test"] },
          { arguments := Option.some [Arg.other, Arg.other, Arg.other,
              Arg.int 0, Arg.str "U", Arg.str "test"] }] : List Instance).length ∧
      ∀ i r,
        ([{ arguments := Option.some [Arg.other, Arg.other, Arg.other,
              Arg.int 0, Arg.str "T", Arg.str "test"] },
          { arguments := Option.some [Arg.other, Arg.other, Arg.other,
              Arg.int 0, Arg.str "U", Arg.str "test"] }] : List Instance).get? i =
            Option.some r →
          ∃ s ds,
            resolveOne
                ({ batch_size := 1, rank := 0, world_size := 1,
                   parent_tasks :=
                     [("T", { dataset := [("test", [0])],
                              doc_to_answer := fun _ => Except.ok (Answer.str "cat") })] } :
                  VirtualModel).parent_tasks r =
              Except.ok (s, ds) ∧
            (["cat", ""] : List String).get? i = Option.some s :=
  C2_amended
    { batch_size := 1, rank := 0, world_size := 1,
      parent_tasks :=
        [("T", { dataset := [("test", [0])],
                 doc_to_answer := fun _ => Except.ok (Answer.str "cat") })] }
    [{ arguments := Option.some [Arg.other, Arg.other, Arg.other,
        Arg.int 0, Arg.str "T", Arg.str "test"] },
      { arguments := Option.some [Arg.other, Arg.other, Arg.other,
        Arg.int 0, Arg.str "U", Arg.str "test"] }]
    ["cat", ""] rfl

end VModel
